import Mathlib

/-!
Verification of the tutorelli workshop-booking server's booking-creation and
payment-reconciliation core, shallowly embedded from the TypeScript source
(src/src/handlers.ts, src/src/ghl.ts, the Stripe webhook handlers, and the
shared type and field tables).  CRM record properties are modelled as
association lists of JavaScript values.  Operations of the external CRM
collaborator (search-by-field-equality, fetch-by-id, create, partial update,
contact upsert-by-email) are modelled from their documented contracts; every
function of this repository is translated from its source.
-/

namespace Tutorelli

/-- JavaScript runtime values as they occur in CRM record properties and
Stripe metadata.  `obj hasValue v` is a plain object, where `hasValue` records
whether the key `value` is present and `v` is that key's value (the only
object shape `parsePrice` inspects).  `nan` is the number NaN. -/
inductive JsValue where
  | undefined
  | null
  | bool (b : Bool)
  | num (q : ℚ)
  | nan
  | str (s : String)
  | obj (hasValue : Bool) (value : JsValue)
deriving DecidableEq

/-- JavaScript falsiness: undefined, null, false, 0, NaN and the empty string. -/
def JsValue.isFalsy : JsValue → Bool
  | .undefined => true
  | .null => true
  | .bool b => !b
  | .num q => q == 0
  | .nan => true
  | .str s => s == ""
  | .obj _ _ => false

/-- Digits of a decimal literal read most-significant first. -/
def digitsToNat (cs : List Char) : ℕ :=
  cs.foldl (fun n c => 10 * n + (c.toNat - 48)) 0

/-- Reads a decimal numeric literal prefix (digits, optional fraction, optional
exponent) from a character list, returning its rational value and the
unconsumed remainder; `none` when no digit is found (JavaScript NaN).  This is
the decimal grammar shared by JavaScript's parseFloat and Number; Infinity and
non-decimal radix literals are not modelled (CRM price fields hold plain
decimal values). -/
def parseUnsignedDecimal (cs : List Char) : Option (ℚ × List Char) :=
  let p1 := cs.span Char.isDigit
  let ip := p1.1
  let p2 : List Char × List Char :=
    match p1.2 with
    | '.' :: r => r.span Char.isDigit
    | _ => ([], p1.2)
  let fp := p2.1
  let rest2 := p2.2
  if ip.isEmpty && fp.isEmpty then none
  else
    let mantissa : ℚ := (digitsToNat ip : ℚ) + (digitsToNat fp : ℚ) / (10 : ℚ) ^ fp.length
    let p3 : ℤ × List Char :=
      match rest2 with
      | c :: r =>
        if c == 'e' || c == 'E' then
          match r with
          | '+' :: r2 =>
            let ds := r2.span Char.isDigit
            if ds.1.isEmpty then (0, rest2) else ((digitsToNat ds.1 : ℤ), ds.2)
          | '-' :: r2 =>
            let ds := r2.span Char.isDigit
            if ds.1.isEmpty then (0, rest2) else (-(digitsToNat ds.1 : ℤ), ds.2)
          | _ =>
            let ds := r.span Char.isDigit
            if ds.1.isEmpty then (0, rest2) else ((digitsToNat ds.1 : ℤ), ds.2)
        else (0, rest2)
      | [] => (0, rest2)
    some (mantissa * (10 : ℚ) ^ p3.1, p3.2)

/-- JavaScript parseFloat: skip leading whitespace, read an optional sign and
the longest decimal literal prefix; NaN (here `none`) when no digit can be
read. -/
def parseFloatJs (s : String) : Option ℚ :=
  let cs := s.toList.dropWhile Char.isWhitespace
  match cs with
  | '-' :: r => (parseUnsignedDecimal r).map (fun p => -p.1)
  | '+' :: r => (parseUnsignedDecimal r).map (fun p => p.1)
  | _ => (parseUnsignedDecimal cs).map (fun p => p.1)

/-- JavaScript Number() applied to a string: whitespace-trimmed; an empty
remainder means 0; otherwise the whole remainder must be one signed decimal
literal, else NaN. -/
def jsNumberFromString (s : String) : Option ℚ :=
  let cs := ((s.toList.dropWhile Char.isWhitespace).reverse.dropWhile Char.isWhitespace).reverse
  match cs with
  | [] => some 0
  | _ =>
    let signed : ℚ × List Char :=
      match cs with
      | '-' :: r => (-1, r)
      | '+' :: r => (1, r)
      | _ => (1, cs)
    match parseUnsignedDecimal signed.2 with
    | some (q, []) => some (signed.1 * q)
    | _ => none

/-- JavaScript Number() conversion; `none` is NaN.  A plain object converts
through its primitive form "[object Object]", which is NaN. -/
def jsToNumber : JsValue → Option ℚ
  | .undefined => none
  | .null => some 0
  | .bool b => some (if b then 1 else 0)
  | .num q => some q
  | .nan => none
  | .str s => jsNumberFromString s
  | .obj _ _ => none

/-- Decimal digits of the fraction r / d in [0, 1), most significant first,
computed by long division. -/
def fracDigitChars (r d : ℕ) : ℕ → List Char
  | 0 => []
  | k + 1 =>
    let r10 := r * 10
    Char.ofNat (48 + r10 / d) :: fracDigitChars (r10 % d) d k

def trimTrailingZeros (cs : List Char) : List Char :=
  (cs.reverse.dropWhile (fun c => c == '0')).reverse

/-- Decimal rendering of a rational, used for JavaScript String() on numbers.
The integer case is exact; a non-integral value is rendered with up to ten
fractional digits, an approximation of JavaScript float formatting that no
claim depends on. -/
def ratToString (q : ℚ) : String :=
  let sign := if q.num < 0 then "-" else ""
  let n := q.num.natAbs
  let d := q.den
  let ip := n / d
  let r := n % d
  if r = 0 then sign ++ toString ip
  else sign ++ toString ip ++ "." ++ String.mk (trimTrailingZeros (fracDigitChars r d 10))

/-- JavaScript String() conversion. -/
def jsToString : JsValue → String
  | .undefined => "undefined"
  | .null => "null"
  | .bool b => if b then "true" else "false"
  | .num q => ratToString q
  | .nan => "NaN"
  | .str s => s
  | .obj _ _ => "[object Object]"

/-- Embeds parsePrice from src/src/ghl.ts: a falsy field is 0; a number is
returned as is; an object carrying a `value` key goes through
`Number(...) || 0`; anything else goes through `parseFloat(String(...)) || 0`. -/
def parsePrice (priceField : JsValue) : ℚ :=
  if priceField.isFalsy then 0
  else
    match priceField with
    | .num q => q
    | .obj true v =>
      match jsToNumber v with
      | some q => q
      | none => 0
    | w =>
      match parseFloatJs (jsToString w) with
      | some q => q
      | none => 0

/-- Property-bag lookup: JavaScript `props[key]`, undefined when absent. -/
def getProp (props : List (String × JsValue)) (key : String) : JsValue :=
  match props.find? (fun kv => kv.1 == key) with
  | some kv => kv.2
  | none => .undefined

/-- JavaScript `String(props[key] || '')` as used by both record parsers. -/
def getStrProp (props : List (String × JsValue)) (key : String) : String :=
  let v := getProp props key
  if v.isFalsy then "" else jsToString v

/-- Assigning a key on a JavaScript object: overwrite in place, else append. -/
def setProp : List (String × JsValue) → String → JsValue → List (String × JsValue)
  | [], key, v => [(key, v)]
  | kv :: rest, key, v => if kv.1 = key then (key, v) :: rest else kv :: setProp rest key v

/-- Merging an update's property bag into a record's: the CRM's documented
partial-update semantics, only supplied keys are written. -/
def applyProps (props delta : List (String × JsValue)) : List (String × JsValue) :=
  delta.foldl (fun ps kv => setProp ps kv.1 kv.2) props

/-- A CRM custom-object record: CRM-assigned id, last-update stamp, property
bag. -/
structure RawRecord where
  id : String
  updatedAt : ℕ
  props : List (String × JsValue)
deriving DecidableEq

/-- Modelled from the spec: the CRM search-by-field-equality contract —
records matching all AND-combined equality filters, first `pageLimit` of them,
in stored order (no sort requested by the caller). -/
def searchRecords (recs : List RawRecord) (filters : List (String × String))
    (pageLimit : ℕ) : List RawRecord :=
  (recs.filter (fun r => filters.all (fun f => getProp r.props f.1 == JsValue.str f.2))).take pageLimit

def insertByUpdatedAt (r : RawRecord) : List RawRecord → List RawRecord
  | [] => [r]
  | x :: xs => if r.updatedAt ≤ x.updatedAt then r :: x :: xs else x :: insertByUpdatedAt r xs

/-- Modelled from the spec: the same search with the CRM sorting results by
last-updated ascending, as fetchOfferings requests via `sort: updatedAt asc`. -/
def searchRecordsSorted (recs : List RawRecord) (filters : List (String × String))
    (pageLimit : ℕ) : List RawRecord :=
  ((recs.foldr insertByUpdatedAt []).filter
    (fun r => filters.all (fun f => getProp r.props f.1 == JsValue.str f.2))).take pageLimit

/-- Modelled from the spec: CRM fetch-by-id. -/
def getRecordById (recs : List RawRecord) (recordId : String) : Option RawRecord :=
  recs.find? (fun r => r.id == recordId)

/-- The WorkshopOffering interface of the shared types module. -/
structure WorkshopOffering where
  id : String
  offering : String
  intake : String
  yearGroup : String
  subject : String
  workshopDate : String
  sessionTime : String
  availability : String
  price : ℚ
  priceLabel : String
  zoomLink : String
  stripePriceId : String
deriving DecidableEq

/-- JavaScript's toLowerCase on the character content (ASCII case folding,
which coincides with JavaScript for the CRM's field values). -/
def toLowerJs (s : String) : String := String.mk (s.data.map Char.toLower)

def listCharLt : List Char → List Char → Bool
  | [], [] => false
  | [], _ :: _ => true
  | _ :: _, [] => false
  | c :: cs, d :: ds => if c < d then true else if d < c then false else listCharLt cs ds

/-- JavaScript's `<` on strings: lexicographic code-unit comparison, which for
the YYYY-MM-DD date strings compared here is plain lexicographic character
comparison. -/
def jsStringLt (a b : String) : Bool := listCharLt a.data b.data

/-- Embeds parseOfferingFromRecord from src/src/ghl.ts; the property keys come
from the OFFERING_FIELDS table of the shared types module. -/
def parseOfferingFromRecord (r : RawRecord) : WorkshopOffering :=
  { id := r.id
  , offering := getStrProp r.props "offering"
  , intake := getStrProp r.props "intake"
  , yearGroup := getStrProp r.props "year_group"
  , subject := getStrProp r.props "subject"
  , workshopDate := getStrProp r.props "workshop_date"
  , sessionTime := getStrProp r.props "session_time"
  , availability := toLowerJs (getStrProp r.props "availability")
  , price := parsePrice (getProp r.props "price")
  , priceLabel := getStrProp r.props "price_label"
  , zoomLink := getStrProp r.props "zoom_link"
  , stripePriceId := getStrProp r.props "stripe_price_id" }

/-- The Booking interface of the shared types module (the variant carrying the
webhook-processed flag). -/
structure Booking where
  id : String
  bookingId : String
  parentContactId : String
  studentContactId : String
  workshopOfferingId : String
  paymentStatus : String
  pricePaid : ℚ
  webhookTriggered : Bool
deriving DecidableEq

/-- Embeds parseBookingFromRecord from src/src/ghl.ts; keys from the
BOOKING_FIELDS table. -/
def parseBookingFromRecord (r : RawRecord) : Booking :=
  { id := r.id
  , bookingId := getStrProp r.props "id"
  , parentContactId := getStrProp r.props "parent_contact_id"
  , studentContactId := getStrProp r.props "student_contact_id"
  , workshopOfferingId := getStrProp r.props "workshop_offering_id"
  , paymentStatus := getStrProp r.props "payment_status"
  , pricePaid := parsePrice (getProp r.props "price")
  , webhookTriggered := getStrProp r.props "webhook_triggered" == "true" }

/-- Embeds fetchOfferings from src/src/ghl.ts: a CRM search filtered to the
year group, sorted by last-updated ascending, page limit 100 (the configured
request page limit), followed by the in-process filter keeping offerings that
are not inactive and whose date has not passed.  Note the source filter does
not exclude availability "full". -/
def fetchOfferings (offeringRecs : List RawRecord) (today yearGroup : String) :
    List WorkshopOffering :=
  let records := searchRecordsSorted offeringRecs [("year_group", yearGroup)] 100
  let offerings := records.map parseOfferingFromRecord
  offerings.filter (fun o => o.availability != "inactive" && !(jsStringLt o.workshopDate today))

/-- Embeds fetchOfferingById from src/src/ghl.ts: fetch-by-id, parsed; a
missing record is `none`. -/
def fetchOfferingById (offeringRecs : List RawRecord) (offeringId : String) :
    Option WorkshopOffering :=
  (getRecordById offeringRecs offeringId).map parseOfferingFromRecord

/-- Embeds findBookingByBookingId from src/src/ghl.ts: a search on the
booking-id property with page limit 1, first match parsed. -/
def findBookingByBookingId (recs : List RawRecord) (bookingId : String) : Option Booking :=
  (searchRecords recs [("id", bookingId)] 1).head?.map parseBookingFromRecord

/-- Embeds findBookingByStudentAndOffering from src/src/ghl.ts: a search on
the student contact and offering properties with page limit 1, first match
parsed. -/
def findBookingByStudentAndOffering (recs : List RawRecord)
    (studentContactId offeringId : String) : Option Booking :=
  (searchRecords recs
     [("student_contact_id", studentContactId), ("workshop_offering_id", offeringId)]
     1).head?.map parseBookingFromRecord

/-- The argument object passed to updateBooking.  The webhook completion
handler's call site also carries a payment reference and currency, even though
updateBooking's body reads only the payment status and the webhook flag; the
extra entries are kept here so that behaviour is visible. -/
structure BookingUpdateArg where
  paymentStatus : Option String := none
  webhookTriggered : Option Bool := none
  currency : Option String := none
  paymentReference : Option String := none
deriving DecidableEq

/-- The property delta built by updateBooking in src/src/ghl.ts: only a
supplied payment status and a supplied webhook flag produce entries; any other
field of the argument is ignored by the body. -/
def updateBookingProps (upd : BookingUpdateArg) : List (String × JsValue) :=
  (match upd.paymentStatus with
    | some s => [("payment_status", JsValue.str s)]
    | none => []) ++
  (match upd.webhookTriggered with
    | some b => [("webhook_triggered", JsValue.str (if b then "true" else "false"))]
    | none => [])

/-- Embeds updateBooking from src/src/ghl.ts: a partial update of the record
with the given CRM id, writing exactly the delta built above. -/
def updateBooking (recs : List RawRecord) (recordId : String) (upd : BookingUpdateArg) :
    List RawRecord :=
  recs.map (fun r =>
    if r.id = recordId then { r with props := applyProps r.props (updateBookingProps upd) } else r)

/-- The effect of updateBooking on a parsed booking: the supplied payment
status and webhook flag replace the old ones, everything else is unchanged. -/
def applyBookingUpdate (b : Booking) (upd : BookingUpdateArg) : Booking :=
  { b with
    paymentStatus := upd.paymentStatus.getD b.paymentStatus,
    webhookTriggered := upd.webhookTriggered.getD b.webhookTriggered }

/-- A CRM contact record, reduced to the fields this system reads or writes. -/
structure ContactRec where
  id : String
  firstName : String
  lastName : String
  name : String
  email : String
  phone : String
  tags : List String
  customFields : List (String × String)
deriving DecidableEq

def mergeTags (old new : List String) : List String :=
  old ++ new.filter (fun t => !old.contains t)

structure ContactUpsertInput where
  firstName : String
  lastName : String
  email : String
  phone : String
  tags : List String
  customFields : List (String × String)
deriving DecidableEq

/-- Modelled from the spec: the CRM contact upsert-by-email contract invoked
by getOrCreateParentContact and getOrCreateStudentContact in src/src/ghl.ts.
If a contact with the email exists, the supplied tags are merged into its tag
set and its other fields are kept; otherwise a contact is created with the
full field set under a fresh CRM-assigned id. -/
def upsertContact (contacts : List ContactRec) (freshId : String)
    (input : ContactUpsertInput) : ContactRec × List ContactRec :=
  match contacts.find? (fun c => c.email == input.email) with
  | some c =>
    let merged := { c with tags := mergeTags c.tags input.tags }
    (merged, contacts.map (fun d => if d.email = input.email then merged else d))
  | none =>
    let fresh : ContactRec :=
      { id := freshId, firstName := input.firstName, lastName := input.lastName
      , name := input.firstName ++ " " ++ input.lastName, email := input.email
      , phone := input.phone, tags := input.tags, customFields := input.customFields }
    (fresh, contacts ++ [fresh])

/-- The parsed output of contactInputSchema in src/src/validation.ts. -/
structure ContactInput where
  firstName : String
  lastName : String
  email : String
  phone : String
deriving DecidableEq

/-- The parsed output of bookingRequestSchema in src/src/validation.ts: an
offering id and the two contacts.  The schema has no price field, so no
request can carry a client-supplied price. -/
structure BookingRequest where
  offeringId : String
  parent : ContactInput
  student : ContactInput
deriving DecidableEq

/-- Embeds getOrCreateParentContact from src/src/ghl.ts: an upsert with the
parent tag, the workshop tag and the parent contact-type custom field. -/
def getOrCreateParentContact (contacts : List ContactRec) (freshId : String)
    (input : ContactInput) (workshopTag : String) : ContactRec × List ContactRec :=
  upsertContact contacts freshId
    { firstName := input.firstName, lastName := input.lastName, email := input.email
    , phone := input.phone, tags := ["parent", workshopTag]
    , customFields := [("Y78OZFHJ5tVCNyVble9a", "parent")] }

/-- Embeds getOrCreateStudentContact from src/src/ghl.ts: an upsert with the
student tag, the workshop tag, and the contact-type, parent-reference and
year-group custom fields. -/
def getOrCreateStudentContact (contacts : List ContactRec) (freshId : String)
    (input : ContactInput) (workshopTag parentContactId yearGroup : String) :
    ContactRec × List ContactRec :=
  upsertContact contacts freshId
    { firstName := input.firstName, lastName := input.lastName, email := input.email
    , phone := input.phone, tags := ["student", workshopTag]
    , customFields :=
        [("Y78OZFHJ5tVCNyVble9a", "student"), ("EAfs2UwBSmgNDU89Yhlj", parentContactId)
        , ("6VQA8CZUWQOGjq3yspkl", yearGroup)] }

/-- Replaces every maximal whitespace run by a single hyphen, as the handler's
`replace` with a global whitespace-run pattern does; `prevWs` says whether the
previous character was part of a run already replaced. -/
def squashWsAux : List Char → Bool → List Char
  | [], _ => []
  | c :: rest, prevWs =>
    if c.isWhitespace then
      (if prevWs then [] else ['-']) ++ squashWsAux rest true
    else c :: squashWsAux rest false

/-- The workshop tag built in handleCreateBooking: the template lower-cased
with whitespace runs replaced by hyphens. -/
def workshopTagFor (offering : WorkshopOffering) : String :=
  String.mk (squashWsAux
    (toLowerJs ("workshop-" ++ offering.yearGroup ++ "-" ++ offering.subject ++ "-"
      ++ offering.workshopDate)).toList false)

/-- One byte of the UTF-8 encoding of a code point, as URLSearchParams encodes
non-safe characters. -/
def utf8Bytes (n : ℕ) : List ℕ :=
  if n < 128 then [n]
  else if n < 2048 then [192 + n / 64, 128 + n % 64]
  else if n < 65536 then [224 + n / 4096, 128 + (n / 64) % 64, 128 + n % 64]
  else [240 + n / 262144, 128 + (n / 4096) % 64, 128 + (n / 64) % 64, 128 + n % 64]

def hexDigitChar (n : ℕ) : Char :=
  if n < 10 then Char.ofNat (48 + n) else Char.ofNat (55 + n)

def percentByte (b : ℕ) : String :=
  String.mk ['%', hexDigitChar (b / 16), hexDigitChar (b % 16)]

/-- application/x-www-form-urlencoded encoding of one component, as
URLSearchParams.toString does: alphanumerics and a few marks pass through,
space becomes a plus, everything else is percent-encoded UTF-8. -/
def encodeFormComponent (s : String) : String :=
  s.toList.foldl (fun acc c =>
    acc ++ (if c.isAlphanum || c = '*' || c = '-' || c = '.' || c = '_' then String.mk [c]
      else if c = ' ' then "+"
      else String.join ((utf8Bytes c.toNat).map percentByte))) ""

def formEncodePairs (ps : List (String × String)) : String :=
  String.intercalate "&" (ps.map (fun p => encodeFormComponent p.1 ++ "=" ++ encodeFormComponent p.2))

/-- The parameters of buildCheckoutUrl in src/src/handlers.ts. -/
structure CheckoutParams where
  priceId : String
  bookingId : String
  parentEmail : String
  parentName : String
  parentPhone : String
  studentName : String
  subject : String
  workshopDate : String
  sessionTime : String
  price : ℚ
deriving DecidableEq

/-- Embeds buildCheckoutUrl from src/src/handlers.ts: the configured checkout
base URL with the URLSearchParams query in source order; the amount is the
price's String() form. -/
def buildCheckoutUrl (checkoutBaseUrl : String) (p : CheckoutParams) : String :=
  checkoutBaseUrl ++ "?" ++ formEncodePairs
    [("price_id", p.priceId), ("booking_id", p.bookingId), ("email", p.parentEmail)
    , ("name", p.parentName), ("phone", p.parentPhone), ("student_name", p.studentName)
    , ("subject", p.subject), ("date", p.workshopDate), ("time", p.sessionTime)
    , ("amount", ratToString p.price)]

/-- The checkout parameters handleCreateBooking assembles for a given booking
id: offering payment reference, parent and student names composed from the
request, and the offering's display fields and price. -/
def checkoutParamsFor (offering : WorkshopOffering) (req : BookingRequest)
    (bookingId : String) : CheckoutParams :=
  { priceId := offering.stripePriceId
  , bookingId := bookingId
  , parentEmail := req.parent.email
  , parentName := req.parent.firstName ++ " " ++ req.parent.lastName
  , parentPhone := req.parent.phone
  , studentName := req.student.firstName ++ " " ++ req.student.lastName
  , subject := offering.subject
  , workshopDate := offering.workshopDate
  , sessionTime := offering.sessionTime
  , price := offering.price }

/-- A structured error envelope: code, message, HTTP status. -/
structure ApiError where
  code : String
  message : String
  status : ℕ
deriving DecidableEq

/-- The BookingResponse body of a successful booking request. -/
structure BookingResponse where
  bookingId : String
  recordId : String
  parentContactId : String
  studentContactId : String
  checkoutUrl : String
deriving DecidableEq

inductive BookingResult where
  | ok (resp : BookingResponse)
  | err (e : ApiError)
deriving DecidableEq

/-- The state of the CRM collaborator: offering records, booking records,
contacts, and the counter from which the CRM assigns fresh record ids. -/
structure CrmState where
  offeringRecords : List RawRecord
  bookingRecords : List RawRecord
  contacts : List ContactRec
  nextRecordId : ℕ
deriving DecidableEq

/-- Embeds createBookingRecord from src/src/ghl.ts: the property bag is built
in source order with payment status pending and the supplied price; the
booking id is drawn outside (generateBookingId is timestamp plus random, so it
enters as a parameter), and the CRM assigns the record id, modelled by the
state counter. -/
def createBookingRecord (st : CrmState) (bookingId pid sid oid : String) (pricePaid : ℚ) :
    String × CrmState :=
  let recordId := "rec-" ++ toString st.nextRecordId
  let newRec : RawRecord :=
    { id := recordId, updatedAt := st.nextRecordId
    , props :=
        [("id", JsValue.str bookingId), ("parent_contact_id", JsValue.str pid)
        , ("student_contact_id", JsValue.str sid), ("workshop_offering_id", JsValue.str oid)
        , ("payment_status", JsValue.str "pending"), ("price", JsValue.num pricePaid)] }
  (recordId, { st with
    bookingRecords := st.bookingRecords ++ [newRec],
    nextRecordId := st.nextRecordId + 1 })

/-- Per-request environment of handleCreateBooking: today's date string
(computed once per request from the server's local date), the configured
checkout base URL, the booking id drawn by generateBookingId, and the CRM ids
assigned if the parent or student contact has to be created. -/
structure Env where
  today : String
  checkoutBaseUrl : String
  freshBookingId : String
  freshParentContactId : String
  freshStudentContactId : String
deriving DecidableEq

/-- The offering validation sequence of handleCreateBooking in
src/src/handlers.ts: existence, not inactive, not full, date not passed,
payment reference present — in that order, each with its own error. -/
def validateOffering (today : String) :
    Option WorkshopOffering → Except ApiError WorkshopOffering
  | none => .error ⟨"OFFERING_NOT_FOUND", "Offering not found", 404⟩
  | some o =>
    if o.availability = "inactive" then
      .error ⟨"OFFERING_UNAVAILABLE", "Workshop is no longer available", 400⟩
    else if o.availability = "full" then
      .error ⟨"OFFERING_UNAVAILABLE", "Workshop is full", 400⟩
    else if jsStringLt o.workshopDate today then
      .error ⟨"OFFERING_PAST", "Workshop date has passed", 400⟩
    else if o.stripePriceId = "" then
      .error ⟨"OFFERING_NO_PRODUCT", "Offering not configured for payment", 500⟩
    else .ok o

/-- Steps 3 to 5 of handleCreateBooking: workshop tag, parent upsert, then
student upsert referencing the parent's id and the offering's year group. -/
def resolveContacts (env : Env) (req : BookingRequest) (offering : WorkshopOffering)
    (contacts : List ContactRec) : ContactRec × ContactRec × List ContactRec :=
  let workshopTag := workshopTagFor offering
  let pr := getOrCreateParentContact contacts env.freshParentContactId req.parent workshopTag
  let sr := getOrCreateStudentContact pr.2 env.freshStudentContactId req.student workshopTag
    pr.1.id offering.yearGroup
  (pr.1, sr.1, sr.2)

/-- Embeds handleCreateBooking from src/src/handlers.ts, after input
validation: validate the offering, resolve parent and student contacts, check
for a duplicate booking (reusing a pending one, rejecting a resolved one), else
create the booking record and build the checkout URL. -/
def handleCreateBooking (env : Env) (req : BookingRequest) (st : CrmState) :
    BookingResult × CrmState :=
  match validateOffering env.today (fetchOfferingById st.offeringRecords req.offeringId) with
  | .error e => (.err e, st)
  | .ok offering =>
    let rc := resolveContacts env req offering st.contacts
    let parentContact := rc.1
    let studentContact := rc.2.1
    let st1 := { st with contacts := rc.2.2 }
    match findBookingByStudentAndOffering st1.bookingRecords studentContact.id req.offeringId with
    | some existingBooking =>
      if existingBooking.paymentStatus = "pending" then
        (.ok { bookingId := existingBooking.bookingId
             , recordId := existingBooking.id
             , parentContactId := parentContact.id
             , studentContactId := studentContact.id
             , checkoutUrl := buildCheckoutUrl env.checkoutBaseUrl
                 (checkoutParamsFor offering req existingBooking.bookingId) }, st1)
      else
        (.err ⟨"DUPLICATE_BOOKING", "Student already booked for this workshop", 400⟩, st1)
    | none =>
      let cr := createBookingRecord st1 env.freshBookingId parentContact.id studentContact.id
        req.offeringId offering.price
      (.ok { bookingId := env.freshBookingId
           , recordId := cr.1
           , parentContactId := parentContact.id
           , studentContactId := studentContact.id
           , checkoutUrl := buildCheckoutUrl env.checkoutBaseUrl
               (checkoutParamsFor offering req env.freshBookingId) }, cr.2)

/-- The checkout-session object of a Stripe webhook event, reduced to the
fields handleStripeWebhook reads.  Metadata entries are absent or strings;
payment_intent is modelled in its string form (the expanded-object form
contributes only its id, the same string). -/
structure StripeSession where
  sessionId : String
  metaBookingId : Option String := none
  metaCustomerName : Option String := none
  metaCustomerEmail : Option String := none
  metaParentPhone : Option String := none
  metaStudentName : Option String := none
  metaStudentEmail : Option String := none
  metaOfferingId : Option String := none
  metaOfferingName : Option String := none
  metaOfferingSubject : Option String := none
  metaOfferingDate : Option String := none
  metaOfferingTime : Option String := none
  metaOfferingYearGroup : Option String := none
  metaOfferingZoomLink : Option String := none
  paymentIntent : Option String := none
  currency : Option String := none
  amountTotal : Option ℚ := none
deriving DecidableEq

structure PayloadBooking where
  bookingId : String
  paymentStatus : String
  pricePaid : ℚ
deriving DecidableEq

structure PayloadOffering where
  id : String
  name : String
  subject : String
  workshopDate : String
  sessionTime : String
  yearGroup : String
  zoomLink : String
deriving DecidableEq

structure PayloadParent where
  name : String
  email : String
  phone : String
deriving DecidableEq

structure PayloadStudent where
  name : String
  email : String
deriving DecidableEq

structure PayloadPayment where
  stripeSessionId : String
  stripePaymentIntentId : Option String
  amountTotal : Option ℚ
  currency : Option String
deriving DecidableEq

/-- The BookingWebhookPayload interface of the shared types module: the body
of the downstream notification POST. -/
structure BookingWebhookPayload where
  booking : PayloadBooking
  offering : PayloadOffering
  parent : PayloadParent
  student : PayloadStudent
  payment : PayloadPayment
deriving DecidableEq

/-- Environment of a webhook delivery: whether the downstream notification URL
is configured (truthiness of the configured URL) and whether the downstream
endpoint would answer 2xx to a POST during this delivery. -/
structure WebhookEnv where
  notifyConfigured : Bool
  notifyOk : Bool
deriving DecidableEq

inductive WebhookResult where
  | ok
  | errResp (code : String) (status : ℕ)
deriving DecidableEq

/-- Outcome of processing one webhook event: the HTTP result, the booking
records after the CRM writes that happened, the outbound notification POSTs
actually made, and the updateBooking calls issued (record id and argument). -/
structure WebhookOutcome where
  result : WebhookResult
  bookingRecords : List RawRecord
  notificationsSent : List BookingWebhookPayload
  updateCalls : List (String × BookingUpdateArg)
deriving DecidableEq

/-- Embeds triggerBookingWebhook from src/src/ghl.ts: a no-op success when no
downstream URL is configured; otherwise one POST, whose non-2xx response
raises (the thrown Error is modelled as failure).  Returns the posted payloads
and whether the call succeeded. -/
def triggerBookingWebhook (env : WebhookEnv) (payload : BookingWebhookPayload) :
    List BookingWebhookPayload × Bool :=
  if env.notifyConfigured then ([payload], env.notifyOk) else ([], true)

/-- The argument of the mark-as-paid updateBooking call in the completed
branch of handleStripeWebhook: payment status paid together with the session's
currency and payment reference. -/
def paidUpdateArg (session : StripeSession) : BookingUpdateArg :=
  { paymentStatus := some "paid"
  , currency := some (session.currency.getD "")
  , paymentReference := some (session.paymentIntent.getD "") }

/-- The argument of the final flag-setting updateBooking call. -/
def webhookTriggeredArg : BookingUpdateArg := { webhookTriggered := some true }

/-- The argument of the expiry branch's updateBooking call. -/
def expiredUpdateArg : BookingUpdateArg := { paymentStatus := some "expired" }

/-- The notification payload built in the completed branch of
handleStripeWebhook, from the fetched booking and the session metadata (each
metadata entry defaulted to the empty string when absent). -/
def mkNotifyPayload (booking : Booking) (session : StripeSession) : BookingWebhookPayload :=
  { booking :=
      { bookingId := booking.bookingId, paymentStatus := "paid", pricePaid := booking.pricePaid }
  , offering :=
      { id := session.metaOfferingId.getD ""
      , name := session.metaOfferingName.getD ""
      , subject := session.metaOfferingSubject.getD ""
      , workshopDate := session.metaOfferingDate.getD ""
      , sessionTime := session.metaOfferingTime.getD ""
      , yearGroup := session.metaOfferingYearGroup.getD ""
      , zoomLink := session.metaOfferingZoomLink.getD "" }
  , parent :=
      { name := session.metaCustomerName.getD ""
      , email := session.metaCustomerEmail.getD ""
      , phone := session.metaParentPhone.getD "" }
  , student :=
      { name := session.metaStudentName.getD "", email := session.metaStudentEmail.getD "" }
  , payment :=
      { stripeSessionId := session.sessionId
      , stripePaymentIntentId := session.paymentIntent
      , amountTotal := session.amountTotal
      , currency := session.currency } }

/-- Embeds the checkout.session.completed branch of handleStripeWebhook
(after signature verification): a missing booking id or booking is
acknowledged; a booking already paid with the flag set is a no-op; otherwise
mark as paid if not yet paid, dispatch the downstream notification, and set
the processed flag only after the dispatch succeeded — a failed dispatch
surfaces WEBHOOK_PROCESSING_FAILED with status 500 (the catch-all of the
handler). -/
def handleCompletedEvent (env : WebhookEnv) (session : StripeSession)
    (recs : List RawRecord) : WebhookOutcome :=
  match session.metaBookingId with
  | none => ⟨.ok, recs, [], []⟩
  | some bookingId =>
    if bookingId.isEmpty then ⟨.ok, recs, [], []⟩
    else
      match findBookingByBookingId recs bookingId with
      | none => ⟨.ok, recs, [], []⟩
      | some booking =>
        if booking.paymentStatus == "paid" && booking.webhookTriggered then
          ⟨.ok, recs, [], []⟩
        else
          let paidStep : List RawRecord × List (String × BookingUpdateArg) :=
            if booking.paymentStatus != "paid" then
              (updateBooking recs booking.id (paidUpdateArg session)
              , [(booking.id, paidUpdateArg session)])
            else (recs, [])
          let notify := triggerBookingWebhook env (mkNotifyPayload booking session)
          if notify.2 then
            ⟨.ok, updateBooking paidStep.1 booking.id webhookTriggeredArg, notify.1
            , paidStep.2 ++ [(booking.id, webhookTriggeredArg)]⟩
          else
            ⟨.errResp "WEBHOOK_PROCESSING_FAILED" 500, paidStep.1, notify.1, paidStep.2⟩

/-- Embeds the checkout.session.expired branch of handleStripeWebhook: only a
booking still pending is transitioned to expired; anything else is
acknowledged untouched. -/
def handleExpiredEvent (session : StripeSession) (recs : List RawRecord) : WebhookOutcome :=
  match session.metaBookingId with
  | none => ⟨.ok, recs, [], []⟩
  | some bookingId =>
    if bookingId.isEmpty then ⟨.ok, recs, [], []⟩
    else
      match findBookingByBookingId recs bookingId with
      | none => ⟨.ok, recs, [], []⟩
      | some booking =>
        if booking.paymentStatus == "pending" then
          ⟨.ok, updateBooking recs booking.id expiredUpdateArg, []
          , [(booking.id, expiredUpdateArg)]⟩
        else ⟨.ok, recs, [], []⟩

/-- A Stripe webhook event after signature verification: the two handled
checkout-session event types, or any other type. -/
inductive StripeEvent where
  | completed (session : StripeSession)
  | expired (session : StripeSession)
  | other (eventType : String)
deriving DecidableEq

/-- The event dispatch of handleStripeWebhook; unrecognized event types are
logged and acknowledged with success. -/
def processStripeEvent (env : WebhookEnv) (ev : StripeEvent) (recs : List RawRecord) :
    WebhookOutcome :=
  match ev with
  | .completed s => handleCompletedEvent env s recs
  | .expired s => handleExpiredEvent s recs
  | .other _ => ⟨.ok, recs, [], []⟩

/-! Sample data used by the witnesses and counterexamples. -/

def sampleOfferingProps : List (String × JsValue) :=
  [("offering", .str "GCSE English Jan"), ("intake", .str "feb_2026")
  , ("year_group", .str "gcse"), ("subject", .str "English")
  , ("workshop_date", .str "2099-01-26"), ("session_time", .str "14:00")
  , ("availability", .str "Available"), ("price", .num 125)
  , ("price_label", .str "Premium"), ("zoom_link", .str "")
  , ("stripe_price_id", .str "price_123")]

def sampleOfferingRec : RawRecord := ⟨"off-1", 1, sampleOfferingProps⟩

def sampleEnv : Env := ⟨"2026-10-12", "https://book.example/checkout", "BK-NEW-1", "par-1", "stu-1"⟩

def sampleReq : BookingRequest :=
  ⟨"off-1", ⟨"John", "Doe", "john@example.com", "+447123456789"⟩
  , ⟨"Jane", "Doe", "jane@example.com", "+447987654321"⟩⟩

def sampleStateFresh : CrmState := ⟨[sampleOfferingRec], [], [], 0⟩

def inactiveOfferingRec : RawRecord :=
  ⟨"off-1", 1, setProp sampleOfferingProps "availability" (.str "inactive")⟩

def fullOfferingRec : RawRecord :=
  ⟨"off-1", 1, setProp sampleOfferingProps "availability" (.str "full")⟩

def pastOfferingRec : RawRecord :=
  ⟨"off-1", 1, setProp sampleOfferingProps "workshop_date" (.str "2020-01-26")⟩

def noProductOfferingRec : RawRecord :=
  ⟨"off-1", 1, setProp sampleOfferingProps "stripe_price_id" (.str "")⟩

def badPriceOfferingRec : RawRecord :=
  ⟨"off-1", 1, setProp sampleOfferingProps "price" (.str "TBC")⟩

def samplePendingBookingProps : List (String × JsValue) :=
  [("id", .str "BK-OLD-1"), ("parent_contact_id", .str "par-1")
  , ("student_contact_id", .str "stu-1"), ("workshop_offering_id", .str "off-1")
  , ("payment_status", .str "pending"), ("price", .num 125)]

def samplePendingBookingRec : RawRecord := ⟨"rec-old", 3, samplePendingBookingProps⟩

def samplePaidBookingRec : RawRecord :=
  ⟨"rec-old", 3, setProp samplePendingBookingProps "payment_status" (.str "paid")⟩

def sampleStatePending : CrmState := ⟨[sampleOfferingRec], [samplePendingBookingRec], [], 7⟩

def sampleStatePaid : CrmState := ⟨[sampleOfferingRec], [samplePaidBookingRec], [], 7⟩

def sampleStateBadPrice : CrmState := ⟨[badPriceOfferingRec], [], [], 0⟩

def webhookPendingProps : List (String × JsValue) :=
  [("id", .str "BK-W1"), ("parent_contact_id", .str "par-1")
  , ("student_contact_id", .str "stu-1"), ("workshop_offering_id", .str "off-1")
  , ("payment_status", .str "pending"), ("price", .num 125)]

def webhookPendingRec : RawRecord := ⟨"rec-w1", 5, webhookPendingProps⟩

def webhookPaidFlaggedRec : RawRecord :=
  ⟨"rec-w1", 5, setProp (setProp webhookPendingProps "payment_status" (.str "paid"))
      "webhook_triggered" (.str "true")⟩

def webhookExpiredRec : RawRecord :=
  ⟨"rec-w1", 5, setProp webhookPendingProps "payment_status" (.str "expired")⟩

def sampleSession : StripeSession :=
  { sessionId := "cs_1", metaBookingId := some "BK-W1"
  , metaCustomerName := some "John Doe", metaCustomerEmail := some "john@example.com"
  , metaParentPhone := some "+447123456789", metaStudentName := some "Jane Doe"
  , metaStudentEmail := some "jane@example.com", metaOfferingId := some "off-1"
  , metaOfferingName := some "GCSE English Jan", metaOfferingSubject := some "English"
  , metaOfferingDate := some "2099-01-26", metaOfferingTime := some "14:00"
  , metaOfferingYearGroup := some "gcse", metaOfferingZoomLink := some ""
  , paymentIntent := some "pi_123", currency := some "gbp", amountTotal := some 12500 }

def sampleStateNoOffering : CrmState := ⟨[], [], [], 0⟩

def sampleStateInactive : CrmState := ⟨[inactiveOfferingRec], [], [], 0⟩

def sampleStateFull : CrmState := ⟨[fullOfferingRec], [], [], 0⟩

def sampleStatePast : CrmState := ⟨[pastOfferingRec], [], [], 0⟩

def sampleStateNoProduct : CrmState := ⟨[noProductOfferingRec], [], [], 0⟩

/-! Association-list and search lemmas. -/

theorem parsePrice_num (q : ℚ) : parsePrice (.num q) = q := by
  by_cases h : q = 0 <;> simp [parsePrice, JsValue.isFalsy, h]

theorem getProp_cons (kv : String × JsValue) (rest : List (String × JsValue)) (k : String) :
    getProp (kv :: rest) k = if kv.1 = k then kv.2 else getProp rest k := by
  by_cases h : kv.1 = k
  · simp [getProp, List.find?, h]
  · have hb : (kv.1 == k) = false := by simp [h]
    simp [getProp, List.find?, h, hb]

theorem getProp_setProp_self (props : List (String × JsValue)) (k : String) (v : JsValue) :
    getProp (setProp props k v) k = v := by
  induction props with
  | nil => simp [setProp, getProp_cons]
  | cons kv rest ih =>
    by_cases h : kv.1 = k
    · simp [setProp, h, getProp_cons]
    · simp [setProp, h, getProp_cons, ih]

theorem getProp_setProp_ne (props : List (String × JsValue)) (k k' : String) (v : JsValue)
    (h : k' ≠ k) : getProp (setProp props k v) k' = getProp props k' := by
  have h2 : k ≠ k' := Ne.symm h
  induction props with
  | nil => simp [setProp, getProp_cons, h2, getProp]
  | cons kv rest ih =>
    by_cases hk : kv.1 = k
    · have hkv : kv.1 ≠ k' := by rw [hk]; exact h2
      simp only [setProp, if_pos hk]
      rw [getProp_cons, getProp_cons, if_neg h2, if_neg hkv]
    · simp only [setProp, if_neg hk]
      rw [getProp_cons, getProp_cons, ih]

theorem getStrProp_of_getProp_eq (props1 props2 : List (String × JsValue)) (k k' : String)
    (h : getProp props1 k = getProp props2 k') : getStrProp props1 k = getStrProp props2 k' := by
  unfold getStrProp
  rw [h]

theorem getStrProp_setProp_self_str (props : List (String × JsValue)) (k s : String) :
    getStrProp (setProp props k (JsValue.str s)) k = s := by
  by_cases h : s = "" <;>
    simp [getStrProp, getProp_setProp_self, JsValue.isFalsy, jsToString, h]

theorem getStrProp_setProp_ne (props : List (String × JsValue)) (k k' : String) (v : JsValue)
    (h : k' ≠ k) : getStrProp (setProp props k v) k' = getStrProp props k' :=
  getStrProp_of_getProp_eq _ _ _ _ (getProp_setProp_ne _ _ _ _ h)

theorem getProp_applyProps_ne (props delta : List (String × JsValue)) (k : String)
    (h : ∀ kv ∈ delta, kv.1 ≠ k) :
    getProp (applyProps props delta) k = getProp props k := by
  induction delta generalizing props with
  | nil => rfl
  | cons kv rest ih =>
    have hrest : ∀ kv2 ∈ rest, kv2.1 ≠ k := fun kv2 hm => h kv2 (List.mem_cons_of_mem _ hm)
    have hkv : k ≠ kv.1 := Ne.symm (h kv (List.mem_cons_self _ _))
    show getProp (applyProps (setProp props kv.1 kv.2) rest) k = getProp props k
    rw [ih _ hrest, getProp_setProp_ne _ _ _ _ hkv]

theorem updateBookingProps_keys (upd : BookingUpdateArg) :
    ∀ kv ∈ updateBookingProps upd, kv.1 = "payment_status" ∨ kv.1 = "webhook_triggered" := by
  rcases upd with ⟨ps, wt, c, pr⟩
  cases ps <;> cases wt <;> simp [updateBookingProps]

theorem getProp_applyUpd_ne (props : List (String × JsValue)) (upd : BookingUpdateArg)
    (k : String) (h1 : k ≠ "payment_status") (h2 : k ≠ "webhook_triggered") :
    getProp (applyProps props (updateBookingProps upd)) k = getProp props k := by
  refine getProp_applyProps_ne _ _ _ (fun kv hm => ?_)
  rcases updateBookingProps_keys upd kv hm with h | h <;> rw [h]
  · exact Ne.symm h1
  · exact Ne.symm h2

theorem getStrProp_applyUpd_ne (props : List (String × JsValue)) (upd : BookingUpdateArg)
    (k : String) (h1 : k ≠ "payment_status") (h2 : k ≠ "webhook_triggered") :
    getStrProp (applyProps props (updateBookingProps upd)) k = getStrProp props k :=
  getStrProp_of_getProp_eq _ _ _ _ (getProp_applyUpd_ne _ _ _ h1 h2)

theorem getStrProp_applyUpd_payment (props : List (String × JsValue)) (upd : BookingUpdateArg) :
    getStrProp (applyProps props (updateBookingProps upd)) "payment_status"
      = upd.paymentStatus.getD (getStrProp props "payment_status") := by
  rcases upd with ⟨ps, wt, c, pr⟩
  cases ps with
  | none =>
    cases wt with
    | none => rfl
    | some b =>
      show getStrProp (setProp props "webhook_triggered" _) "payment_status" = _
      rw [getStrProp_setProp_ne _ _ _ _ (by decide)]
      rfl
  | some s =>
    cases wt with
    | none =>
      show getStrProp (setProp props "payment_status" (JsValue.str s)) "payment_status" = _
      rw [getStrProp_setProp_self_str]
      rfl
    | some b =>
      show getStrProp (setProp (setProp props "payment_status" (JsValue.str s))
        "webhook_triggered" _) "payment_status" = _
      rw [getStrProp_setProp_ne _ _ _ _ (by decide), getStrProp_setProp_self_str]
      rfl

theorem getStrProp_applyUpd_flag (props : List (String × JsValue)) (upd : BookingUpdateArg) :
    (getStrProp (applyProps props (updateBookingProps upd)) "webhook_triggered" == "true")
      = (upd.webhookTriggered.map (fun b =>
          ((if b then "true" else "false") == ("true" : String)))).getD
          (getStrProp props "webhook_triggered" == "true") := by
  rcases upd with ⟨ps, wt, c, pr⟩
  cases ps with
  | none =>
    cases wt with
    | none => rfl
    | some b =>
      show (getStrProp (setProp props "webhook_triggered" (JsValue.str _)) "webhook_triggered"
        == "true") = _
      rw [getStrProp_setProp_self_str]
      rfl
  | some s =>
    cases wt with
    | none =>
      show (getStrProp (setProp props "payment_status" _) "webhook_triggered" == "true") = _
      rw [getStrProp_setProp_ne _ _ _ _ (by decide)]
      rfl
    | some b =>
      show (getStrProp (setProp (setProp props "payment_status" _) "webhook_triggered"
        (JsValue.str _)) "webhook_triggered" == "true") = _
      rw [getStrProp_setProp_self_str]
      rfl

theorem parseBooking_id (r : RawRecord) : (parseBookingFromRecord r).id = r.id := rfl

theorem parseBooking_applyUpd (r : RawRecord) (upd : BookingUpdateArg) :
    parseBookingFromRecord { r with props := applyProps r.props (updateBookingProps upd) }
      = applyBookingUpdate (parseBookingFromRecord r) upd := by
  have hpay := getStrProp_applyUpd_payment r.props upd
  have hflag := getStrProp_applyUpd_flag r.props upd
  simp only [parseBookingFromRecord, applyBookingUpdate]
  congr 1
  case e_bookingId => exact getStrProp_applyUpd_ne _ _ _ (by decide) (by decide)
  case e_parentContactId => exact getStrProp_applyUpd_ne _ _ _ (by decide) (by decide)
  case e_studentContactId => exact getStrProp_applyUpd_ne _ _ _ (by decide) (by decide)
  case e_workshopOfferingId => exact getStrProp_applyUpd_ne _ _ _ (by decide) (by decide)
  case e_pricePaid => rw [getProp_applyUpd_ne _ _ _ (by decide) (by decide)]
  case e_webhookTriggered =>
    rw [hflag]
    cases hwt : upd.webhookTriggered with
    | none => rfl
    | some b => cases b <;> rfl

theorem head?_take_one {α : Type} (l : List α) : (l.take 1).head? = l.head? := by
  cases l <;> rfl

theorem head?_filter_eq_find? {α : Type} (p : α → Bool) (l : List α) :
    (l.filter p).head? = l.find? p := by
  induction l with
  | nil => rfl
  | cons a rest ih => cases hp : p a <;> simp [List.filter, hp, ih, List.find?]

theorem findBooking_eq_find? (recs : List RawRecord) (bid : String) :
    findBookingByBookingId recs bid
      = (recs.find? (fun r => getProp r.props "id" == JsValue.str bid)).map
          parseBookingFromRecord := by
  unfold findBookingByBookingId searchRecords
  rw [head?_take_one, head?_filter_eq_find?]
  have hp : (fun r : RawRecord => ([("id", bid)] : List (String × String)).all
      (fun f => getProp r.props f.1 == JsValue.str f.2))
      = fun r : RawRecord => getProp r.props "id" == JsValue.str bid := by
    funext r
    simp [List.all]
  rw [hp]

theorem find?_map_of_pred_eq {α : Type} (f : α → α) (p : α → Bool)
    (h : ∀ a, p (f a) = p a) (l : List α) :
    (l.map f).find? p = (l.find? p).map f := by
  induction l with
  | nil => rfl
  | cons a rest ih =>
    simp only [List.map_cons]
    cases hp : p a <;> simp [List.find?, h a, hp, ih]

theorem findBooking_updateBooking (recs : List RawRecord) (rid : String)
    (upd : BookingUpdateArg) (bid : String) :
    findBookingByBookingId (updateBooking recs rid upd) bid
      = (findBookingByBookingId recs bid).map
          (fun b => if b.id = rid then applyBookingUpdate b upd else b) := by
  rw [findBooking_eq_find?, findBooking_eq_find?]
  unfold updateBooking
  rw [find?_map_of_pred_eq]
  · cases hf : recs.find? (fun r => getProp r.props "id" == JsValue.str bid) with
    | none => rfl
    | some r =>
      simp only [Option.map_some']
      by_cases h : r.id = rid
      · rw [if_pos h, parseBooking_applyUpd, if_pos (by rw [parseBooking_id]; exact h)]
      · rw [if_neg h, if_neg (by rw [parseBooking_id]; exact h)]
  · intro r
    by_cases h : r.id = rid
    · rw [if_pos h]
      show (getProp (applyProps r.props (updateBookingProps upd)) "id" == JsValue.str bid)
        = (getProp r.props "id" == JsValue.str bid)
      rw [getProp_applyUpd_ne _ _ _ (by decide) (by decide)]
    · rw [if_neg h]

theorem findBooking_updateBooking_self (recs : List RawRecord) (bid : String) (b : Booking)
    (rid : String) (upd : BookingUpdateArg)
    (hfind : findBookingByBookingId recs bid = some b) (hr : b.id = rid) :
    findBookingByBookingId (updateBooking recs rid upd) bid
      = some (applyBookingUpdate b upd) := by
  rw [findBooking_updateBooking, hfind]
  simp [hr]

theorem applyBookingUpdate_id (b : Booking) (upd : BookingUpdateArg) :
    (applyBookingUpdate b upd).id = b.id := rfl

theorem applyBookingUpdate_flagArg (b : Booking) :
    applyBookingUpdate b webhookTriggeredArg = { b with webhookTriggered := true } := rfl

theorem applyBookingUpdate_paidArg (b : Booking) (s : StripeSession) :
    applyBookingUpdate b (paidUpdateArg s)
      = { b with paymentStatus := "paid" } := rfl

/-! Run-shape lemmas for the webhook completion and expiry branches. -/

theorem completed_noop (env : WebhookEnv) (s : StripeSession) (recs : List RawRecord)
    (bid : String) (b : Booking)
    (hmeta : s.metaBookingId = some bid) (hne : bid.isEmpty = false)
    (hfind : findBookingByBookingId recs bid = some b)
    (hps : b.paymentStatus = "paid") (hwt : b.webhookTriggered = true) :
    handleCompletedEvent env s recs = ⟨.ok, recs, [], []⟩ := by
  simp [handleCompletedEvent, hmeta, hne, hfind, hps, hwt]

theorem completed_run_paid (env : WebhookEnv) (s : StripeSession) (recs : List RawRecord)
    (bid : String) (b : Booking)
    (hmeta : s.metaBookingId = some bid) (hne : bid.isEmpty = false)
    (hfind : findBookingByBookingId recs bid = some b)
    (hps : b.paymentStatus = "paid") (hwt : b.webhookTriggered = false)
    (hcfg : env.notifyConfigured = true) :
    handleCompletedEvent env s recs =
      if env.notifyOk then
        ⟨.ok, updateBooking recs b.id webhookTriggeredArg, [mkNotifyPayload b s],
          [(b.id, webhookTriggeredArg)]⟩
      else
        ⟨.errResp "WEBHOOK_PROCESSING_FAILED" 500, recs, [mkNotifyPayload b s], []⟩ := by
  simp only [handleCompletedEvent, hmeta, hne, hfind, Bool.false_eq_true, if_false]
  have hg : (b.paymentStatus == "paid" && b.webhookTriggered) = false := by
    simp [hps, hwt]
  have hp : (b.paymentStatus != "paid") = false := by simp [hps]
  simp only [hg, hp, Bool.false_eq_true, if_false, triggerBookingWebhook, hcfg, if_true]
  cases env.notifyOk <;> simp

theorem completed_run_unpaid (env : WebhookEnv) (s : StripeSession) (recs : List RawRecord)
    (bid : String) (b : Booking)
    (hmeta : s.metaBookingId = some bid) (hne : bid.isEmpty = false)
    (hfind : findBookingByBookingId recs bid = some b)
    (hps : b.paymentStatus ≠ "paid")
    (hcfg : env.notifyConfigured = true) :
    handleCompletedEvent env s recs =
      if env.notifyOk then
        ⟨.ok, updateBooking (updateBooking recs b.id (paidUpdateArg s)) b.id webhookTriggeredArg,
          [mkNotifyPayload b s], [(b.id, paidUpdateArg s), (b.id, webhookTriggeredArg)]⟩
      else
        ⟨.errResp "WEBHOOK_PROCESSING_FAILED" 500, updateBooking recs b.id (paidUpdateArg s),
          [mkNotifyPayload b s], [(b.id, paidUpdateArg s)]⟩ := by
  simp only [handleCompletedEvent, hmeta, hne, hfind, Bool.false_eq_true, if_false]
  have hg : (b.paymentStatus == "paid" && b.webhookTriggered) = false := by
    simp [hps]
  have hp : (b.paymentStatus != "paid") = true := by simp [hps]
  simp only [hg, hp, Bool.false_eq_true, if_false, if_true, triggerBookingWebhook, hcfg]
  cases env.notifyOk <;> simp

theorem expired_noop (s : StripeSession) (recs : List RawRecord) (bid : String) (b : Booking)
    (hmeta : s.metaBookingId = some bid) (hne : bid.isEmpty = false)
    (hfind : findBookingByBookingId recs bid = some b)
    (hps : b.paymentStatus ≠ "pending") :
    handleExpiredEvent s recs = ⟨.ok, recs, [], []⟩ := by
  have hg : (b.paymentStatus == "pending") = false := by simp [hps]
  simp [handleExpiredEvent, hmeta, hne, hfind, hg]

theorem expired_fire (s : StripeSession) (recs : List RawRecord) (bid : String) (b : Booking)
    (hmeta : s.metaBookingId = some bid) (hne : bid.isEmpty = false)
    (hfind : findBookingByBookingId recs bid = some b)
    (hps : b.paymentStatus = "pending") :
    handleExpiredEvent s recs
      = ⟨.ok, updateBooking recs b.id expiredUpdateArg, [], [(b.id, expiredUpdateArg)]⟩ := by
  simp [handleExpiredEvent, hmeta, hne, hfind, hps]

/-- C1: In the payment webhook completion handler, the webhook-processed flag
is set on the booking only after the downstream notification dispatch
succeeds; if the dispatch fails, the handler surfaces
WEBHOOK_PROCESSING_FAILED with status 500 and leaves the flag unset (no
updateBooking call of the failed run writes the flag), so that on an external
redelivery of the same event the mark-as-paid step is skipped (no redelivery
update call carries a payment status) while the notification and the flag
update are reattempted and succeed. -/
theorem c1_completion_notified_before_flag
    (env env2 : WebhookEnv) (s : StripeSession) (recs : List RawRecord)
    (bid : String) (b : Booking)
    (hmeta : s.metaBookingId = some bid) (hne : bid.isEmpty = false)
    (hfind : findBookingByBookingId recs bid = some b)
    (hwt : b.webhookTriggered = false)
    (hcfg : env.notifyConfigured = true) (hko : env.notifyOk = false)
    (hcfg2 : env2.notifyConfigured = true) (hok2 : env2.notifyOk = true) :
    (handleCompletedEvent env s recs).result = .errResp "WEBHOOK_PROCESSING_FAILED" 500
    ∧ (∃ b1, findBookingByBookingId (handleCompletedEvent env s recs).bookingRecords bid = some b1
        ∧ b1.paymentStatus = "paid" ∧ b1.webhookTriggered = false)
    ∧ (∀ c ∈ (handleCompletedEvent env s recs).updateCalls, c.2.webhookTriggered = none)
    ∧ (handleCompletedEvent env2 s (handleCompletedEvent env s recs).bookingRecords).result = .ok
    ∧ (∀ c ∈ (handleCompletedEvent env2 s
          (handleCompletedEvent env s recs).bookingRecords).updateCalls,
        c.2.paymentStatus = none)
    ∧ (handleCompletedEvent env2 s
        (handleCompletedEvent env s recs).bookingRecords).notificationsSent.length = 1
    ∧ (∃ b2, findBookingByBookingId (handleCompletedEvent env2 s
          (handleCompletedEvent env s recs).bookingRecords).bookingRecords bid = some b2
        ∧ b2.paymentStatus = "paid" ∧ b2.webhookTriggered = true) := by
  by_cases hps : b.paymentStatus = "paid"
  · have h1 := completed_run_paid env s recs bid b hmeta hne hfind hps hwt hcfg
    rw [hko] at h1
    simp only [Bool.false_eq_true, if_false] at h1
    have h2 := completed_run_paid env2 s recs bid b hmeta hne hfind hps hwt hcfg2
    rw [hok2] at h2
    simp only [if_true] at h2
    have hb2 := findBooking_updateBooking_self recs bid b b.id webhookTriggeredArg hfind rfl
    refine ⟨?_, ?_, ?_, ?_, ?_, ?_, ?_⟩
    · rw [h1]
    · rw [h1]
      exact ⟨b, hfind, hps, hwt⟩
    · rw [h1]
      intro c hc
      exact absurd hc (by simp)
    · rw [h1]
      show (handleCompletedEvent env2 s recs).result = .ok
      rw [h2]
    · rw [h1]
      show ∀ c ∈ (handleCompletedEvent env2 s recs).updateCalls, c.2.paymentStatus = none
      rw [h2]
      intro c hc
      have : c = (b.id, webhookTriggeredArg) := List.mem_singleton.mp hc
      subst this
      rfl
    · rw [h1]
      show (handleCompletedEvent env2 s recs).notificationsSent.length = 1
      rw [h2]
      rfl
    · rw [h1]
      show ∃ b2, findBookingByBookingId (handleCompletedEvent env2 s recs).bookingRecords bid
          = some b2 ∧ b2.paymentStatus = "paid" ∧ b2.webhookTriggered = true
      rw [h2]
      exact ⟨applyBookingUpdate b webhookTriggeredArg, hb2, hps, rfl⟩
  · have h1 := completed_run_unpaid env s recs bid b hmeta hne hfind hps hcfg
    rw [hko] at h1
    simp only [Bool.false_eq_true, if_false] at h1
    have hb1 : findBookingByBookingId (updateBooking recs b.id (paidUpdateArg s)) bid
        = some (applyBookingUpdate b (paidUpdateArg s)) :=
      findBooking_updateBooking_self recs bid b b.id _ hfind rfl
    have hb1ps : (applyBookingUpdate b (paidUpdateArg s)).paymentStatus = "paid" := rfl
    have hb1wt : (applyBookingUpdate b (paidUpdateArg s)).webhookTriggered = false := hwt
    have h2 := completed_run_paid env2 s (updateBooking recs b.id (paidUpdateArg s)) bid
      (applyBookingUpdate b (paidUpdateArg s)) hmeta hne hb1 hb1ps hb1wt hcfg2
    rw [hok2] at h2
    simp only [if_true] at h2
    have hb2 := findBooking_updateBooking_self (updateBooking recs b.id (paidUpdateArg s)) bid
      (applyBookingUpdate b (paidUpdateArg s)) (applyBookingUpdate b (paidUpdateArg s)).id
      webhookTriggeredArg hb1 rfl
    refine ⟨?_, ?_, ?_, ?_, ?_, ?_, ?_⟩
    · rw [h1]
    · rw [h1]
      exact ⟨applyBookingUpdate b (paidUpdateArg s), hb1, rfl, hb1wt⟩
    · rw [h1]
      intro c hc
      have : c = (b.id, paidUpdateArg s) := List.mem_singleton.mp hc
      subst this
      rfl
    · rw [h1]
      show (handleCompletedEvent env2 s (updateBooking recs b.id (paidUpdateArg s))).result = .ok
      rw [h2]
    · rw [h1]
      show ∀ c ∈ (handleCompletedEvent env2 s
          (updateBooking recs b.id (paidUpdateArg s))).updateCalls, c.2.paymentStatus = none
      rw [h2]
      intro c hc
      have : c = ((applyBookingUpdate b (paidUpdateArg s)).id, webhookTriggeredArg) :=
        List.mem_singleton.mp hc
      subst this
      rfl
    · rw [h1]
      show (handleCompletedEvent env2 s
          (updateBooking recs b.id (paidUpdateArg s))).notificationsSent.length = 1
      rw [h2]
      rfl
    · rw [h1]
      show ∃ b2, findBookingByBookingId (handleCompletedEvent env2 s
          (updateBooking recs b.id (paidUpdateArg s))).bookingRecords bid
          = some b2 ∧ b2.paymentStatus = "paid" ∧ b2.webhookTriggered = true
      rw [h2]
      exact ⟨applyBookingUpdate (applyBookingUpdate b (paidUpdateArg s)) webhookTriggeredArg,
        hb2, rfl, rfl⟩

/-- C1 witness: the partial-failure scenario evaluated on a concrete pending
booking and completion event. -/
theorem c1_completion_notified_before_flag_witness :
    (handleCompletedEvent ⟨true, false⟩ sampleSession [webhookPendingRec]).result
      = .errResp "WEBHOOK_PROCESSING_FAILED" 500 :=
  (c1_completion_notified_before_flag ⟨true, false⟩ ⟨true, true⟩ sampleSession
    [webhookPendingRec] "BK-W1" (parseBookingFromRecord webhookPendingRec)
    (by decide) (by decide) (by decide) (by decide) rfl rfl rfl rfl).1

/-- C2: Processing a completion event for a booking already paid with the
processed flag set performs no booking update and no downstream notification
and returns success; and delivering the same completion event twice with both
deliveries succeeding sends the downstream notification exactly once (one POST
on the first delivery, none on the second) and leaves the payment status paid
after either delivery. -/
theorem c2_completion_idempotent
    (env : WebhookEnv) (s : StripeSession) (recs : List RawRecord)
    (bid : String) (b : Booking)
    (hmeta : s.metaBookingId = some bid) (hne : bid.isEmpty = false)
    (hfind : findBookingByBookingId recs bid = some b) :
    (b.paymentStatus = "paid" → b.webhookTriggered = true →
      handleCompletedEvent env s recs = ⟨.ok, recs, [], []⟩)
    ∧ (env.notifyConfigured = true → env.notifyOk = true →
       ¬(b.paymentStatus = "paid" ∧ b.webhookTriggered = true) →
       (handleCompletedEvent env s recs).result = .ok
       ∧ (handleCompletedEvent env s recs).notificationsSent.length = 1
       ∧ handleCompletedEvent env s (handleCompletedEvent env s recs).bookingRecords
           = ⟨.ok, (handleCompletedEvent env s recs).bookingRecords, [], []⟩
       ∧ ∃ b2, findBookingByBookingId (handleCompletedEvent env s recs).bookingRecords bid
             = some b2 ∧ b2.paymentStatus = "paid" ∧ b2.webhookTriggered = true) := by
  constructor
  · intro hps hwt
    exact completed_noop env s recs bid b hmeta hne hfind hps hwt
  · intro hcfg hok hnot
    by_cases hps : b.paymentStatus = "paid"
    · have hwt : b.webhookTriggered = false := by
        cases hbw : b.webhookTriggered
        · rfl
        · exact absurd ⟨hps, hbw⟩ hnot
      have h1 := completed_run_paid env s recs bid b hmeta hne hfind hps hwt hcfg
      rw [hok] at h1
      simp only [if_true] at h1
      have hb2 := findBooking_updateBooking_self recs bid b b.id webhookTriggeredArg hfind rfl
      have hnoop := completed_noop env s (updateBooking recs b.id webhookTriggeredArg) bid
        (applyBookingUpdate b webhookTriggeredArg) hmeta hne hb2 hps rfl
      refine ⟨?_, ?_, ?_, ?_⟩
      · rw [h1]
      · rw [h1]
        rfl
      · rw [h1]
        exact hnoop
      · rw [h1]
        exact ⟨applyBookingUpdate b webhookTriggeredArg, hb2, hps, rfl⟩
    · have h1 := completed_run_unpaid env s recs bid b hmeta hne hfind hps hcfg
      rw [hok] at h1
      simp only [if_true] at h1
      have hb1 : findBookingByBookingId (updateBooking recs b.id (paidUpdateArg s)) bid
          = some (applyBookingUpdate b (paidUpdateArg s)) :=
        findBooking_updateBooking_self recs bid b b.id _ hfind rfl
      have hb2 := findBooking_updateBooking_self (updateBooking recs b.id (paidUpdateArg s)) bid
        (applyBookingUpdate b (paidUpdateArg s)) (applyBookingUpdate b (paidUpdateArg s)).id
        webhookTriggeredArg hb1 rfl
      have hnoop := completed_noop env s
        (updateBooking (updateBooking recs b.id (paidUpdateArg s)) b.id webhookTriggeredArg) bid
        (applyBookingUpdate (applyBookingUpdate b (paidUpdateArg s)) webhookTriggeredArg)
        hmeta hne hb2 rfl rfl
      refine ⟨?_, ?_, ?_, ?_⟩
      · rw [h1]
      · rw [h1]
        rfl
      · rw [h1]
        exact hnoop
      · rw [h1]
        exact ⟨applyBookingUpdate (applyBookingUpdate b (paidUpdateArg s)) webhookTriggeredArg,
          hb2, rfl, rfl⟩

/-- C2 witness: the fully-reconciled no-op evaluated on a concrete paid and
flagged booking. -/
theorem c2_completion_idempotent_witness :
    handleCompletedEvent ⟨true, true⟩ sampleSession [webhookPaidFlaggedRec]
      = ⟨.ok, [webhookPaidFlaggedRec], [], []⟩ :=
  (c2_completion_idempotent ⟨true, true⟩ sampleSession [webhookPaidFlaggedRec] "BK-W1"
    (parseBookingFromRecord webhookPaidFlaggedRec)
    (by decide) (by decide) (by decide)).1 (by decide) (by decide)

theorem findBooking_eq_of_id_eq (recs : List RawRecord)
    (hnd : (recs.map RawRecord.id).Nodup) {bid1 bid2 : String} {b1 b2 : Booking}
    (h1 : findBookingByBookingId recs bid1 = some b1)
    (h2 : findBookingByBookingId recs bid2 = some b2) (hid : b1.id = b2.id) : b1 = b2 := by
  rw [findBooking_eq_find?] at h1 h2
  rcases Option.map_eq_some'.mp h1 with ⟨r1, hr1, hp1⟩
  rcases Option.map_eq_some'.mp h2 with ⟨r2, hr2, hp2⟩
  have hm1 := List.mem_of_find?_eq_some hr1
  have hm2 := List.mem_of_find?_eq_some hr2
  have hid2 : r1.id = r2.id := by
    rw [← hp1, ← hp2] at hid
    exact hid
  have hr : r1 = r2 := List.inj_on_of_nodup_map hnd hm1 hm2 hid2
  rw [← hp1, ← hp2, hr]

theorem paid_preserved_by_update (recs : List RawRecord) (bid : String) (b : Booking)
    (rid : String) (upd : BookingUpdateArg)
    (hfind : findBookingByBookingId recs bid = some b) (hps : b.paymentStatus = "paid")
    (hupd : upd.paymentStatus = none ∨ upd.paymentStatus = some "paid") :
    ∃ b2, findBookingByBookingId (updateBooking recs rid upd) bid = some b2
      ∧ b2.paymentStatus = "paid" := by
  rw [findBooking_updateBooking, hfind]
  by_cases h : b.id = rid
  · refine ⟨applyBookingUpdate b upd, by simp [h], ?_⟩
    rcases hupd with h2 | h2 <;> simp [applyBookingUpdate, h2, hps]
  · exact ⟨b, by simp [h], hps⟩

/-- Every way the completed branch can leave the booking store: untouched, or
the found booking updated by the mark-as-paid delta, the flag delta, or both
in sequence. -/
theorem completed_recs_shape (env : WebhookEnv) (s : StripeSession) (recs : List RawRecord) :
    (handleCompletedEvent env s recs).bookingRecords = recs
    ∨ ∃ b0 bid0, s.metaBookingId = some bid0 ∧ findBookingByBookingId recs bid0 = some b0
      ∧ ((handleCompletedEvent env s recs).bookingRecords
            = updateBooking recs b0.id (paidUpdateArg s)
        ∨ (handleCompletedEvent env s recs).bookingRecords
            = updateBooking (updateBooking recs b0.id (paidUpdateArg s)) b0.id webhookTriggeredArg
        ∨ (handleCompletedEvent env s recs).bookingRecords
            = updateBooking recs b0.id webhookTriggeredArg) := by
  unfold handleCompletedEvent
  cases hm : s.metaBookingId with
  | none => exact Or.inl rfl
  | some bid0 =>
    by_cases hbe : bid0.isEmpty = true
    · simp only [hbe, if_true]
      exact Or.inl (by trivial)
    · have hbe2 : bid0.isEmpty = false := by
        cases h2 : bid0.isEmpty
        · rfl
        · exact absurd h2 hbe
      simp only [hbe2, Bool.false_eq_true, if_false]
      cases hf : findBookingByBookingId recs bid0 with
      | none => exact Or.inl rfl
      | some b0 =>
        by_cases hg : (b0.paymentStatus == "paid" && b0.webhookTriggered) = true
        · simp only [hg, if_true]
          exact Or.inl (by trivial)
        · have hg2 : (b0.paymentStatus == "paid" && b0.webhookTriggered) = false := by
            cases h2 : (b0.paymentStatus == "paid" && b0.webhookTriggered)
            · rfl
            · exact absurd h2 hg
          simp only [hg2, Bool.false_eq_true, if_false]
          by_cases hp : (b0.paymentStatus != "paid") = true
          · simp only [hp, if_true]
            cases hn : (triggerBookingWebhook env (mkNotifyPayload b0 s)).2
            · simp only [hn, Bool.false_eq_true, if_false]
              exact Or.inr ⟨b0, bid0, rfl, hf, Or.inl (by trivial)⟩
            · simp only [hn, if_true]
              exact Or.inr ⟨b0, bid0, rfl, hf, Or.inr (Or.inl (by trivial))⟩
          · have hp2 : (b0.paymentStatus != "paid") = false := by
              cases h2 : (b0.paymentStatus != "paid")
              · rfl
              · exact absurd h2 hp
            simp only [hp2, Bool.false_eq_true, if_false]
            cases hn : (triggerBookingWebhook env (mkNotifyPayload b0 s)).2
            · simp only [hn, Bool.false_eq_true, if_false]
              exact Or.inl (by trivial)
            · simp only [hn, if_true]
              exact Or.inr ⟨b0, bid0, rfl, hf, Or.inr (Or.inr (by trivial))⟩

/-- Every way the expiry branch can leave the booking store: untouched, or a
booking still pending updated to expired. -/
theorem expired_recs_shape (s : StripeSession) (recs : List RawRecord) :
    (handleExpiredEvent s recs).bookingRecords = recs
    ∨ ∃ b0 bid0, s.metaBookingId = some bid0 ∧ findBookingByBookingId recs bid0 = some b0
      ∧ b0.paymentStatus = "pending"
      ∧ (handleExpiredEvent s recs).bookingRecords = updateBooking recs b0.id expiredUpdateArg := by
  unfold handleExpiredEvent
  cases hm : s.metaBookingId with
  | none => exact Or.inl rfl
  | some bid0 =>
    by_cases hbe : bid0.isEmpty = true
    · simp only [hbe, if_true]
      exact Or.inl (by trivial)
    · have hbe2 : bid0.isEmpty = false := by
        cases h2 : bid0.isEmpty
        · rfl
        · exact absurd h2 hbe
      simp only [hbe2, Bool.false_eq_true, if_false]
      cases hf : findBookingByBookingId recs bid0 with
      | none => exact Or.inl rfl
      | some b0 =>
        by_cases hp : b0.paymentStatus = "pending"
        · simp only [hp]
          simp only [beq_self_eq_true, if_true]
          exact Or.inr ⟨b0, bid0, rfl, hf, hp, by trivial⟩
        · have hp2 : (b0.paymentStatus == "pending") = false := by simp [hp]
          simp only [hp2, Bool.false_eq_true, if_false]
          exact Or.inl (by trivial)

/-- C3 counterexample: the claim that a booking in a terminal status is never
transitioned out fails on the code — a completion event arriving for a booking
already marked expired transitions it to paid. -/
theorem c3_counterexample_expired_to_paid :
    findBookingByBookingId [webhookExpiredRec] "BK-W1"
        = some (parseBookingFromRecord webhookExpiredRec)
    ∧ (parseBookingFromRecord webhookExpiredRec).paymentStatus = "expired"
    ∧ ((processStripeEvent ⟨false, true⟩ (.completed sampleSession)
        [webhookExpiredRec]).bookingRecords.map
          (fun r => getStrProp r.props "payment_status")) = ["paid"] := by
  decide

/-- C3 (amended): a booking whose status is paid is never transitioned out of
paid by any webhook event; an expiry event for a booking that is not pending
(in particular one already paid or expired) is a complete no-op; and an expiry
event never transitions a booking out of expired.  A completion event,
however, does transition an expired booking to paid (see the
counterexample), so expired is terminal only with respect to expiry events. -/
theorem c3_terminal_statuses_amended
    (recs : List RawRecord) (bid : String) (b : Booking)
    (hnd : (recs.map RawRecord.id).Nodup)
    (hfind : findBookingByBookingId recs bid = some b) :
    (b.paymentStatus = "paid" → ∀ env ev, ∃ b2,
        findBookingByBookingId (processStripeEvent env ev recs).bookingRecords bid = some b2
        ∧ b2.paymentStatus = "paid")
    ∧ (b.paymentStatus ≠ "pending" → ∀ s : StripeSession, s.metaBookingId = some bid →
        handleExpiredEvent s recs = ⟨.ok, recs, [], []⟩)
    ∧ (b.paymentStatus = "expired" → ∀ env s, ∃ b2,
        findBookingByBookingId (processStripeEvent env (.expired s) recs).bookingRecords bid
          = some b2 ∧ b2.paymentStatus = "expired") := by
  refine ⟨?_, ?_, ?_⟩
  · intro hps env ev
    cases ev with
    | completed s =>
      show ∃ b2, findBookingByBookingId (handleCompletedEvent env s recs).bookingRecords bid
        = some b2 ∧ b2.paymentStatus = "paid"
      rcases completed_recs_shape env s recs with heq | ⟨b0, bid0, _, hf0, hcase⟩
      · rw [heq]
        exact ⟨b, hfind, hps⟩
      · rcases hcase with h | h | h
        · rw [h]
          exact paid_preserved_by_update recs bid b b0.id _ hfind hps (Or.inr rfl)
        · rw [h]
          obtain ⟨b1, hb1, hb1p⟩ :=
            paid_preserved_by_update recs bid b b0.id (paidUpdateArg s) hfind hps (Or.inr rfl)
          exact paid_preserved_by_update _ bid b1 b0.id webhookTriggeredArg hb1 hb1p (Or.inl rfl)
        · rw [h]
          exact paid_preserved_by_update recs bid b b0.id webhookTriggeredArg hfind hps
            (Or.inl rfl)
    | expired s =>
      show ∃ b2, findBookingByBookingId (handleExpiredEvent s recs).bookingRecords bid
        = some b2 ∧ b2.paymentStatus = "paid"
      rcases expired_recs_shape s recs with heq | ⟨b0, bid0, _, hf0, hpend, heq⟩
      · rw [heq]
        exact ⟨b, hfind, hps⟩
      · rw [heq, findBooking_updateBooking, hfind]
        by_cases hid : b.id = b0.id
        · have hbb := findBooking_eq_of_id_eq recs hnd hfind hf0 hid
          rw [hbb, hpend] at hps
          exact absurd hps (by decide)
        · exact ⟨b, by simp [hid], hps⟩
    | other t =>
      exact ⟨b, hfind, hps⟩
  · intro hnp s hm
    by_cases hbe : bid.isEmpty = true
    · simp [handleExpiredEvent, hm, hbe]
    · have hbe2 : bid.isEmpty = false := by
        cases h2 : bid.isEmpty
        · rfl
        · exact absurd h2 hbe
      exact expired_noop s recs bid b hm hbe2 hfind hnp
  · intro hexp env s
    show ∃ b2, findBookingByBookingId (handleExpiredEvent s recs).bookingRecords bid
      = some b2 ∧ b2.paymentStatus = "expired"
    rcases expired_recs_shape s recs with heq | ⟨b0, bid0, _, hf0, hpend, heq⟩
    · rw [heq]
      exact ⟨b, hfind, hexp⟩
    · rw [heq, findBooking_updateBooking, hfind]
      by_cases hid : b.id = b0.id
      · have hbb := findBooking_eq_of_id_eq recs hnd hfind hf0 hid
        rw [hbb, hpend] at hexp
        exact absurd hexp (by decide)
      · exact ⟨b, by simp [hid], hexp⟩

/-- C3 witness: the amended terminal-status property evaluated on a concrete
paid and flagged booking. -/
theorem c3_terminal_statuses_amended_witness :
    handleExpiredEvent sampleSession [webhookPaidFlaggedRec]
      = ⟨.ok, [webhookPaidFlaggedRec], [], []⟩ :=
  (c3_terminal_statuses_amended [webhookPaidFlaggedRec] "BK-W1"
    (parseBookingFromRecord webhookPaidFlaggedRec) (by decide) (by decide)).2.1
    (by decide) sampleSession (by decide)

/-- C7: the offerings listing does not exclude availability-full offerings —
a full, future-dated offering of the queried year group is returned by
fetchOfferings, contradicting the claim that full offerings are absent. -/
theorem c7_full_offering_not_excluded :
    (parseOfferingFromRecord fullOfferingRec).availability = "full"
    ∧ (parseOfferingFromRecord fullOfferingRec).yearGroup = "gcse"
    ∧ jsStringLt (parseOfferingFromRecord fullOfferingRec).workshopDate "2026-10-12" = false
    ∧ fetchOfferings [fullOfferingRec] "2026-10-12" "gcse"
        = [parseOfferingFromRecord fullOfferingRec] := by
  decide

/-- C8 counterexample: the completion handler's mark-as-paid update carries a
payment reference and currency, but updateBooking writes neither — the updated
record is identical to one updated with the payment status alone, carries no
currency property, and no property holds the payment reference. -/
theorem c8_counterexample_reference_dropped :
    updateBooking [webhookPendingRec] "rec-w1"
        ⟨some "paid", none, some "gbp", some "pi_123"⟩
      = [⟨"rec-w1", 5, setProp webhookPendingProps "payment_status" (JsValue.str "paid")⟩]
    ∧ updateBooking [webhookPendingRec] "rec-w1" ⟨some "paid", none, some "gbp", some "pi_123"⟩
      = updateBooking [webhookPendingRec] "rec-w1" ⟨some "paid", none, none, none⟩
    ∧ getProp (setProp webhookPendingProps "payment_status" (JsValue.str "paid")) "currency"
      = JsValue.undefined
    ∧ ((setProp webhookPendingProps "payment_status" (JsValue.str "paid")).all
        (fun kv => !(kv.2 == JsValue.str "pi_123"))) = true := by
  decide

/-- C8 (amended): updateBooking writes exactly the supplied subset of the
payment status and the webhook-processed flag, leaving every other booking
field unchanged; the payment reference and currency supplied at the completion
handler's call site are ignored — the result does not depend on them and they
are never persisted. -/
theorem c8_update_booking_frame_amended (recs : List RawRecord) (rid : String)
    (upd : BookingUpdateArg) (bid : String) :
    findBookingByBookingId (updateBooking recs rid upd) bid
      = (findBookingByBookingId recs bid).map
          (fun b => if b.id = rid then applyBookingUpdate b upd else b)
    ∧ ∀ c p, updateBooking recs rid
        { paymentStatus := upd.paymentStatus, webhookTriggered := upd.webhookTriggered
        , currency := c, paymentReference := p } = updateBooking recs rid upd := by
  constructor
  · exact findBooking_updateBooking recs rid upd bid
  · intro c p
    rfl

/-- C6: handleCreateBooking validates the fetched offering with checks in this
exact order, each producing its distinct named failure: a missing offering is
OFFERING_NOT_FOUND with status 404; availability inactive is
OFFERING_UNAVAILABLE ("Workshop is no longer available"); availability full is
OFFERING_UNAVAILABLE ("Workshop is full"); a workshop date lexically before
today's date string is OFFERING_PAST; an absent payment-product reference is
OFFERING_NO_PRODUCT with status 500.  The ordering is expressed by each later
check firing only when the earlier conditions do not hold. -/
theorem c6_offering_validation_order (env : Env) (req : BookingRequest) (st : CrmState) :
    (fetchOfferingById st.offeringRecords req.offeringId = none →
      handleCreateBooking env req st
        = (.err ⟨"OFFERING_NOT_FOUND", "Offering not found", 404⟩, st))
    ∧ (∀ o, fetchOfferingById st.offeringRecords req.offeringId = some o →
        o.availability = "inactive" →
        handleCreateBooking env req st
          = (.err ⟨"OFFERING_UNAVAILABLE", "Workshop is no longer available", 400⟩, st))
    ∧ (∀ o, fetchOfferingById st.offeringRecords req.offeringId = some o →
        o.availability ≠ "inactive" → o.availability = "full" →
        handleCreateBooking env req st
          = (.err ⟨"OFFERING_UNAVAILABLE", "Workshop is full", 400⟩, st))
    ∧ (∀ o, fetchOfferingById st.offeringRecords req.offeringId = some o →
        o.availability ≠ "inactive" → o.availability ≠ "full" →
        jsStringLt o.workshopDate env.today = true →
        handleCreateBooking env req st
          = (.err ⟨"OFFERING_PAST", "Workshop date has passed", 400⟩, st))
    ∧ (∀ o, fetchOfferingById st.offeringRecords req.offeringId = some o →
        o.availability ≠ "inactive" → o.availability ≠ "full" →
        jsStringLt o.workshopDate env.today = false → o.stripePriceId = "" →
        handleCreateBooking env req st
          = (.err ⟨"OFFERING_NO_PRODUCT", "Offering not configured for payment", 500⟩, st)) := by
  refine ⟨?_, ?_, ?_, ?_, ?_⟩
  · intro h
    simp [handleCreateBooking, h, validateOffering]
  · intro o h h1
    simp [handleCreateBooking, h, validateOffering, h1]
  · intro o h h1 h2
    simp [handleCreateBooking, h, validateOffering, h1, h2]
  · intro o h h1 h2 h3
    simp [handleCreateBooking, h, validateOffering, h1, h2, h3]
  · intro o h h1 h2 h3 h4
    simp [handleCreateBooking, h, validateOffering, h1, h2, h3, h4]

/-- C6 witness: the five checks evaluated on concrete offering records. -/
theorem c6_offering_validation_order_witness :
    handleCreateBooking sampleEnv sampleReq sampleStateNoOffering
      = (.err ⟨"OFFERING_NOT_FOUND", "Offering not found", 404⟩, sampleStateNoOffering)
    ∧ handleCreateBooking sampleEnv sampleReq sampleStateInactive
      = (.err ⟨"OFFERING_UNAVAILABLE", "Workshop is no longer available", 400⟩,
          sampleStateInactive)
    ∧ handleCreateBooking sampleEnv sampleReq sampleStateFull
      = (.err ⟨"OFFERING_UNAVAILABLE", "Workshop is full", 400⟩, sampleStateFull)
    ∧ handleCreateBooking sampleEnv sampleReq sampleStatePast
      = (.err ⟨"OFFERING_PAST", "Workshop date has passed", 400⟩, sampleStatePast)
    ∧ handleCreateBooking sampleEnv sampleReq sampleStateNoProduct
      = (.err ⟨"OFFERING_NO_PRODUCT", "Offering not configured for payment", 500⟩,
          sampleStateNoProduct) :=
  ⟨(c6_offering_validation_order sampleEnv sampleReq sampleStateNoOffering).1 (by decide),
   (c6_offering_validation_order sampleEnv sampleReq sampleStateInactive).2.1
     (parseOfferingFromRecord inactiveOfferingRec) (by decide) (by decide),
   (c6_offering_validation_order sampleEnv sampleReq sampleStateFull).2.2.1
     (parseOfferingFromRecord fullOfferingRec) (by decide) (by decide) (by decide),
   (c6_offering_validation_order sampleEnv sampleReq sampleStatePast).2.2.2.1
     (parseOfferingFromRecord pastOfferingRec) (by decide) (by decide) (by decide) (by decide),
   (c6_offering_validation_order sampleEnv sampleReq sampleStateNoProduct).2.2.2.2
     (parseOfferingFromRecord noProductOfferingRec) (by decide) (by decide) (by decide)
     (by decide) (by decide)⟩

/-- C4: when the booking request finds an existing booking for the resolved
(studentContactId, offeringId) pair, a pending one is reused — the request
succeeds without creating a booking record, returning the existing booking's
identifiers together with a freshly built checkout URL — while any other
payment status fails with DUPLICATE_BOOKING, again without touching the
booking records. -/
theorem c4_duplicate_guard (env : Env) (req : BookingRequest) (st : CrmState)
    (o : WorkshopOffering) (ex : Booking)
    (hfetch : fetchOfferingById st.offeringRecords req.offeringId = some o)
    (h1 : o.availability ≠ "inactive") (h2 : o.availability ≠ "full")
    (h3 : jsStringLt o.workshopDate env.today = false) (h4 : o.stripePriceId ≠ "")
    (hfind : findBookingByStudentAndOffering st.bookingRecords
        (resolveContacts env req o st.contacts).2.1.id req.offeringId = some ex) :
    (ex.paymentStatus = "pending" →
      handleCreateBooking env req st
        = (.ok { bookingId := ex.bookingId
               , recordId := ex.id
               , parentContactId := (resolveContacts env req o st.contacts).1.id
               , studentContactId := (resolveContacts env req o st.contacts).2.1.id
               , checkoutUrl := buildCheckoutUrl env.checkoutBaseUrl
                   (checkoutParamsFor o req ex.bookingId) },
           { st with contacts := (resolveContacts env req o st.contacts).2.2 }))
    ∧ (ex.paymentStatus ≠ "pending" →
      handleCreateBooking env req st
        = (.err ⟨"DUPLICATE_BOOKING", "Student already booked for this workshop", 400⟩,
           { st with contacts := (resolveContacts env req o st.contacts).2.2 })) := by
  have hv : validateOffering env.today (some o) = .ok o := by
    simp [validateOffering, h1, h2, h3, h4]
  constructor
  · intro hpend
    simp [handleCreateBooking, hfetch, hv, hfind, hpend]
  · intro hpend
    simp [handleCreateBooking, hfetch, hv, hfind, hpend]

/-- C4 witness: reuse of a concrete pending booking. -/
theorem c4_duplicate_guard_witness :
    handleCreateBooking sampleEnv sampleReq sampleStatePending
      = (.ok { bookingId := (parseBookingFromRecord samplePendingBookingRec).bookingId
             , recordId := (parseBookingFromRecord samplePendingBookingRec).id
             , parentContactId := (resolveContacts sampleEnv sampleReq
                 (parseOfferingFromRecord sampleOfferingRec) sampleStatePending.contacts).1.id
             , studentContactId := (resolveContacts sampleEnv sampleReq
                 (parseOfferingFromRecord sampleOfferingRec) sampleStatePending.contacts).2.1.id
             , checkoutUrl := buildCheckoutUrl sampleEnv.checkoutBaseUrl
                 (checkoutParamsFor (parseOfferingFromRecord sampleOfferingRec) sampleReq
                   (parseBookingFromRecord samplePendingBookingRec).bookingId) },
         { sampleStatePending with contacts := (resolveContacts sampleEnv sampleReq
             (parseOfferingFromRecord sampleOfferingRec) sampleStatePending.contacts).2.2 }) :=
  (c4_duplicate_guard sampleEnv sampleReq sampleStatePending
    (parseOfferingFromRecord sampleOfferingRec) (parseBookingFromRecord samplePendingBookingRec)
    (by decide) (by decide) (by decide) (by decide) (by decide) (by decide)).1 (by decide)

/-- C5: every booking record created by handleCreateBooking stores exactly the
fetched offering's price as the price-paid property (its parsed value equals
the offering's price); the booking request type, mirroring
bookingRequestSchema, has no price field, so the stored price is never a
client-supplied value. -/
theorem c5_price_copied_from_offering (env : Env) (req : BookingRequest) (st : CrmState)
    (o : WorkshopOffering)
    (hfetch : fetchOfferingById st.offeringRecords req.offeringId = some o)
    (h1 : o.availability ≠ "inactive") (h2 : o.availability ≠ "full")
    (h3 : jsStringLt o.workshopDate env.today = false) (h4 : o.stripePriceId ≠ "")
    (hnone : findBookingByStudentAndOffering st.bookingRecords
        (resolveContacts env req o st.contacts).2.1.id req.offeringId = none) :
    (handleCreateBooking env req st).2.bookingRecords
      = st.bookingRecords
        ++ [{ id := "rec-" ++ toString st.nextRecordId
            , updatedAt := st.nextRecordId
            , props := [("id", JsValue.str env.freshBookingId)
              , ("parent_contact_id", JsValue.str (resolveContacts env req o st.contacts).1.id)
              , ("student_contact_id",
                  JsValue.str (resolveContacts env req o st.contacts).2.1.id)
              , ("workshop_offering_id", JsValue.str req.offeringId)
              , ("payment_status", JsValue.str "pending")
              , ("price", JsValue.num o.price)] }]
    ∧ parsePrice (JsValue.num o.price) = o.price
    ∧ (handleCreateBooking env req st).1
        = .ok { bookingId := env.freshBookingId
              , recordId := "rec-" ++ toString st.nextRecordId
              , parentContactId := (resolveContacts env req o st.contacts).1.id
              , studentContactId := (resolveContacts env req o st.contacts).2.1.id
              , checkoutUrl := buildCheckoutUrl env.checkoutBaseUrl
                  (checkoutParamsFor o req env.freshBookingId) } := by
  have hv : validateOffering env.today (some o) = .ok o := by
    simp [validateOffering, h1, h2, h3, h4]
  refine ⟨?_, parsePrice_num o.price, ?_⟩
  · simp [handleCreateBooking, hfetch, hv, hnone, createBookingRecord]
  · simp [handleCreateBooking, hfetch, hv, hnone, createBookingRecord]

/-- C5 witness: price copied from a concrete offering into the created
record. -/
theorem c5_price_copied_from_offering_witness :
    (handleCreateBooking sampleEnv sampleReq sampleStateFresh).1
      = .ok { bookingId := sampleEnv.freshBookingId
            , recordId := "rec-" ++ toString sampleStateFresh.nextRecordId
            , parentContactId := (resolveContacts sampleEnv sampleReq
                (parseOfferingFromRecord sampleOfferingRec) sampleStateFresh.contacts).1.id
            , studentContactId := (resolveContacts sampleEnv sampleReq
                (parseOfferingFromRecord sampleOfferingRec) sampleStateFresh.contacts).2.1.id
            , checkoutUrl := buildCheckoutUrl sampleEnv.checkoutBaseUrl
                (checkoutParamsFor (parseOfferingFromRecord sampleOfferingRec) sampleReq
                  sampleEnv.freshBookingId) } :=
  (c5_price_copied_from_offering sampleEnv sampleReq sampleStateFresh
    (parseOfferingFromRecord sampleOfferingRec)
    (by decide) (by decide) (by decide) (by decide) (by decide) (by decide)).2.2

/-- C9 counterexample: a request rejected with the business-rule error
DUPLICATE_BOOKING has nevertheless created contact records — the duplicate
check runs after the parent and student upserts, so the claim that every
business-rule failure precedes any mutating operation is false. -/
theorem c9_counterexample_contacts_mutated_on_duplicate :
    (handleCreateBooking sampleEnv sampleReq sampleStatePaid).1
      = .err ⟨"DUPLICATE_BOOKING", "Student already booked for this workshop", 400⟩
    ∧ sampleStatePaid.contacts = []
    ∧ (handleCreateBooking sampleEnv sampleReq sampleStatePaid).2.contacts ≠ [] := by
  decide

/-- C9 (amended): every offering-eligibility failure is returned before any
mutating operation — the state is completely unchanged — while the
duplicate-booking failure is detected only after the parent and student
contact upserts, so a DUPLICATE_BOOKING rejection may create or update
contacts; no rejected request of any kind creates or updates a booking
record (and none consumes a CRM record id). -/
theorem c9_fail_fast_amended (env : Env) (req : BookingRequest) (st : CrmState) :
    (∀ e, (handleCreateBooking env req st).1 = .err e → e.code ≠ "DUPLICATE_BOOKING" →
      (handleCreateBooking env req st).2 = st)
    ∧ (∀ e, (handleCreateBooking env req st).1 = .err e →
      (handleCreateBooking env req st).2.bookingRecords = st.bookingRecords
      ∧ (handleCreateBooking env req st).2.offeringRecords = st.offeringRecords
      ∧ (handleCreateBooking env req st).2.nextRecordId = st.nextRecordId) := by
  cases hv : validateOffering env.today (fetchOfferingById st.offeringRecords req.offeringId) with
  | error e0 =>
    have hh : handleCreateBooking env req st = (.err e0, st) := by
      simp [handleCreateBooking, hv]
    constructor
    · intro e he hne
      rw [hh]
    · intro e he
      rw [hh]
      exact ⟨rfl, rfl, rfl⟩
  | ok o =>
    cases hf : findBookingByStudentAndOffering st.bookingRecords
        (resolveContacts env req o st.contacts).2.1.id req.offeringId with
    | none =>
      constructor
      · intro e he hne
        simp [handleCreateBooking, hv, hf, createBookingRecord] at he
      · intro e he
        simp [handleCreateBooking, hv, hf, createBookingRecord] at he
    | some ex =>
      by_cases hp : ex.paymentStatus = "pending"
      · constructor
        · intro e he hne
          simp [handleCreateBooking, hv, hf, hp] at he
        · intro e he
          simp [handleCreateBooking, hv, hf, hp] at he
      · have hh : handleCreateBooking env req st
            = (.err ⟨"DUPLICATE_BOOKING", "Student already booked for this workshop", 400⟩,
               { st with contacts := (resolveContacts env req o st.contacts).2.2 }) := by
          simp [handleCreateBooking, hv, hf, hp]
        constructor
        · intro e he hne
          have h4 : BookingResult.err
              (⟨"DUPLICATE_BOOKING", "Student already booked for this workshop", 400⟩ : ApiError)
              = BookingResult.err e := by
            rw [hh] at he
            exact he
          injection h4 with h5
          rw [← h5] at hne
          exact absurd rfl hne
        · intro e he
          rw [hh]
          exact ⟨rfl, rfl, rfl⟩

/-- C9 witness: an eligibility failure leaves a concrete state untouched. -/
theorem c9_fail_fast_amended_witness :
    (handleCreateBooking sampleEnv sampleReq sampleStateInactive).2 = sampleStateInactive :=
  (c9_fail_fast_amended sampleEnv sampleReq sampleStateInactive).1
    ⟨"OFFERING_UNAVAILABLE", "Workshop is no longer available", 400⟩ (by decide) (by decide)

set_option maxRecDepth 8000 in
/-- C10: parsePrice is total and never fails — a falsy field (absent, null,
false, 0, NaN, empty string), an unparsable string, an object whose value key
does not convert to a number, and an object without a value key all yield 0;
offering eligibility never examines the price; and a booking is created
successfully with a stored price of 0 when the offering record carries an
unparsable price string. -/
theorem c10_parse_price_total_zero :
    (∀ v : JsValue, v.isFalsy = true → parsePrice v = 0)
    ∧ (∀ s : String, parseFloatJs s = none → parsePrice (.str s) = 0)
    ∧ (∀ v : JsValue, jsToNumber v = none → parsePrice (.obj true v) = 0)
    ∧ (∀ v : JsValue, parsePrice (.obj false v) = 0)
    ∧ (∀ (today : String) (o : WorkshopOffering) (q : ℚ),
        validateOffering today (some { o with price := q })
          = (validateOffering today (some o)).map (fun o2 => { o2 with price := q }))
    ∧ parsePrice (getProp badPriceOfferingRec.props "price") = 0
    ∧ (handleCreateBooking sampleEnv sampleReq sampleStateBadPrice).1
        = .ok { bookingId := "BK-NEW-1", recordId := "rec-0", parentContactId := "par-1"
              , studentContactId := "stu-1"
              , checkoutUrl := buildCheckoutUrl sampleEnv.checkoutBaseUrl
                  (checkoutParamsFor (parseOfferingFromRecord badPriceOfferingRec) sampleReq
                    "BK-NEW-1") }
    ∧ ((handleCreateBooking sampleEnv sampleReq sampleStateBadPrice).2.bookingRecords.map
        (fun r => getProp r.props "price")) = [JsValue.num 0] := by
  refine ⟨?_, ?_, ?_, ?_, ?_, by decide, by decide, by decide⟩
  · intro v hv
    simp [parsePrice, hv]
  · intro s hs
    by_cases h : s = ""
    · simp [parsePrice, JsValue.isFalsy, h]
    · have hf : (JsValue.str s).isFalsy = false := by simp [JsValue.isFalsy, h]
      simp [parsePrice, hf, jsToString, hs]
  · intro v hv
    have hf : (JsValue.obj true v).isFalsy = false := rfl
    simp [parsePrice, hf, hv]
  · intro v
    have hf : (JsValue.obj false v).isFalsy = false := rfl
    have hpf : parseFloatJs "[object Object]" = none := by decide
    simp [parsePrice, hf, jsToString, hpf]
  · intro today o q
    rcases o with ⟨oid, off, intk, yg, subj, wd, stime, avail, pr, plab, zl, spid⟩
    simp only [validateOffering]
    split_ifs <;> rfl

/-- C10 witness: an unparsable price string evaluates to 0. -/
theorem c10_parse_price_total_zero_witness :
    parseFloatJs "TBC" = none ∧ parsePrice (.str "TBC") = 0 :=
  ⟨by decide, c10_parse_price_total_zero.2.1 "TBC" (by decide)⟩

end Tutorelli
